import Mathlib

/-!
Verification of the clock/reset generation bench (bench/arty.py).

The Python source builds, with migen/LiteX, a clock-and-reset generator
(class `_CRG`) made of two cascaded S7PLL instances, six clock domains,
an IDELAYCTRL calibration block and a free-running 32-bit cycle counter
exposed through a read-only CSR, plus a bench SoC and a `main` entry
point that can invoke a frequency-sweep test driver.

We embed the elaborated structure of `_CRG.__init__` (which clock
domains are declared, how each PLL's reset is wired, which clkouts are
created on which PLL instance, which CSRs exist) as plain Lean data,
translated line by line from the source.  The behaviour of the S7PLL
primitive itself (lock dynamics, clock gating) lives outside this
repository, so where a claim needs it we model it from the spec in
clearly marked definitions.
-/

/-- Input/derived one-bit signals appearing in the comb wiring of
`_CRG.__init__`. -/
inductive Sig where
  | cpu_reset
  | main_pll_locked
  | pll_locked
  deriving DecidableEq, Repr

/-- Combinational signal expressions: a signal or its bitwise inverse,
mirroring migen's `sig` and `~sig`. -/
inductive SigExpr where
  | sig : Sig → SigExpr
  | lnot : SigExpr → SigExpr
  deriving DecidableEq, Repr

/-- Evaluate a combinational expression under a valuation of the
signals. -/
def SigExpr.eval (v : Sig → Bool) : SigExpr → Bool
  | .sig s => v s
  | .lnot e => !(SigExpr.eval v e)

/-- One `create_clkout` call: target clock domain name, requested
frequency in Hz, and phase in degrees (migen default 0). -/
structure Clkout where
  cd : String
  freq : Nat
  phase : Nat
  deriving DecidableEq, Repr

/-- The elaborated configuration of one S7PLL instance: the expression
driving its reset input, its registered input clock (name and frequency
in Hz), its created outputs, and whether `expose_drp` was called on it
(the dynamic-reconfiguration interface). -/
structure S7PLL where
  reset_expr : SigExpr
  clkin_name : String
  clkin_freq : Nat
  clkouts : List Clkout
  drp_exposed : Bool
  deriving DecidableEq, Repr

/-- A declared clock domain: its name and whether it was declared with
`reset_less=True`. -/
structure ClockDomainDecl where
  name : String
  reset_less : Bool
  deriving DecidableEq, Repr

/-- Kinds of LiteX CSR used in the source: `CSRStatus` is read-only
(status driven by hardware, no write path), `CSRStorage` would be
writable. -/
inductive CSRKind where
  | status
  | storage
  deriving DecidableEq, Repr

/-- Whether a CSR kind offers a write interface to the external bus. -/
def CSRKind.writable : CSRKind → Bool
  | .status => false
  | .storage => true

/-- The elaborated structure of `_CRG.__init__`: declared clock domains,
the two PLL instances, the clock domain feeding the IDELAYCTRL
calibration block, and the cycle-counter CSR (kind and bit width). -/
structure CRG where
  clock_domains : List ClockDomainDecl
  main_pll : S7PLL
  pll : S7PLL
  idelayctrl_cd : String
  sys_clk_counter_kind : CSRKind
  sys_clk_counter_width : Nat
  deriving DecidableEq, Repr

/-- Line-by-line translation of `_CRG.__init__(platform, sys_clk_freq)`
from bench/arty.py:
clock domains sys_pll, sys, sys4x (reset_less), sys4x_dqs (reset_less),
clk200, uart; `main_pll` with reset `~cpu_reset`, clkin clk100 at
100 MHz, clkouts sys_pll at sys_clk_freq, clk200 at 200 MHz, uart at
100 MHz, and `expose_drp()`; IDELAYCTRL on cd_clk200; `pll` with reset
`~main_pll.locked`, clkin cd_sys_pll.clk at sys_clk_freq, clkouts sys at
sys_clk_freq, sys4x at 4*sys_clk_freq, sys4x_dqs at 4*sys_clk_freq with
phase 90; and a 32-bit `sys_clk_counter` exposed as a CSRStatus. -/
def crg (sys_clk_freq : Nat) : CRG :=
  { clock_domains := [
      ⟨"sys_pll", false⟩,
      ⟨"sys", false⟩,
      ⟨"sys4x", true⟩,
      ⟨"sys4x_dqs", true⟩,
      ⟨"clk200", false⟩,
      ⟨"uart", false⟩],
    main_pll := {
      reset_expr := .lnot (.sig .cpu_reset),
      clkin_name := "clk100",
      clkin_freq := 100000000,
      clkouts := [
        ⟨"sys_pll", sys_clk_freq, 0⟩,
        ⟨"clk200", 200000000, 0⟩,
        ⟨"uart", 100000000, 0⟩],
      drp_exposed := true },
    pll := {
      reset_expr := .lnot (.sig .main_pll_locked),
      clkin_name := "sys_pll",
      clkin_freq := sys_clk_freq,
      clkouts := [
        ⟨"sys", sys_clk_freq, 0⟩,
        ⟨"sys4x", 4 * sys_clk_freq, 0⟩,
        ⟨"sys4x_dqs", 4 * sys_clk_freq, 90⟩],
      drp_exposed := false },
    idelayctrl_cd := "clk200",
    sys_clk_counter_kind := .status,
    sys_clk_counter_width := 32 }

/-- Frequency of the clkout a PLL creates on a given clock domain, if
any. -/
def pllClkoutFreq (p : S7PLL) (cd : String) : Option Nat :=
  (p.clkouts.find? (fun o => o.cd == cd)).map (fun o => o.freq)

/-- Phase of the clkout a PLL creates on a given clock domain, if
any. -/
def pllClkoutPhase (p : S7PLL) (cd : String) : Option Nat :=
  (p.clkouts.find? (fun o => o.cd == cd)).map (fun o => o.phase)

/-- The default system clock frequency of `BenchSoC.__init__`
(`sys_clk_freq=int(150e6)`). -/
def benchSoCDefaultSysClkFreq : Nat := 150000000

/-- One step of the 32-bit cycle counter register, translated from the
source's synchronous statement `sys_clk_counter.eq(sys_clk_counter + 1)`
on a `Signal(32)`: the register wraps at 2^32. -/
def sysClkCounterNext (c : Nat) : Nat := (c + 1) % 2 ^ 32

/-- Modelled from the spec: the S7PLL primitive is external to this
repository; per the spec, while a PLL's reset input is asserted its
LockState is forced unlocked, and otherwise lock follows the hardware
feedback, observed as a boolean. -/
def pllLockedObs (resetAsserted feedback : Bool) : Bool :=
  !resetAsserted && feedback

/-- Modelled from the spec: while a PLL is unlocked, its derived output
clocks are held inactive. -/
def pllOutputActive (locked : Bool) : Bool := locked

/-- Per-instant observation of the bench clocking system: the reset and
lock status of both PLLs and whether the operating (sys) clock is
active. -/
structure BenchObs where
  main_pll_reset : Bool
  main_pll_locked : Bool
  pll_reset : Bool
  pll_locked : Bool
  sys_clock_active : Bool
  deriving DecidableEq, Repr

/-- Observation of the cascade given the external `cpu_reset` signal and
the two PLLs' hardware lock feedback.  The reset wirings are translated
from the source (`main_pll.reset.eq(~platform.request("cpu_reset"))` and
`pll.reset.eq(~main_pll.locked)`); the lock and clock-activity dynamics
use the spec-modelled `pllLockedObs` and `pllOutputActive`. -/
def benchObs (cpu_reset mainFb cascadeFb : Bool) : BenchObs :=
  let mr := !cpu_reset
  let ml := pllLockedObs mr mainFb
  let pr := !ml
  let pl := pllLockedObs pr cascadeFb
  { main_pll_reset := mr,
    main_pll_locked := ml,
    pll_reset := pr,
    pll_locked := pl,
    sys_clock_active := pllOutputActive pl }

/-- Modelled from the spec: a synchronous register in the operating
clock domain only advances when that domain's clock is active; when
active, the cycle counter advances by the source's update. -/
def counterTick (sysClockActive : Bool) (c : Nat) : Nat :=
  if sysClockActive then sysClkCounterNext c else c

/-- Modelled from the spec: the S7IDELAYCTRL calibration block is
external to this repository; per the spec it is held in reset exactly
while the PLL feeding its clock domain is unlocked, and is active
otherwise, with no separate handshake. -/
def idelayctrlActive (mainPllLocked : Bool) : Bool := mainPllLocked

/-- The parsed command-line arguments of `main`. -/
structure Args where
  build : Bool
  load : Bool
  test : Bool
  deriving DecidableEq, Repr

/-- Where the sweep driver's reference VCO frequency comes from: the
computed configuration of a named PLL instance
(`soc.crg.<name>.compute_config()["vco"]`, computed by external LiteX
code) or a literal value. -/
inductive VcoSource where
  | pllComputedConfigVco : String → VcoSource
  | literal : Nat → VcoSource
  deriving DecidableEq, Repr

/-- The parameters `main` passes to the external sweep driver
`s7_bench_test`. -/
structure SweepParams where
  freq_min : Nat
  freq_max : Nat
  freq_step : Nat
  vco_freq : VcoSource
  bios_filename : String
  deriving DecidableEq, Repr

/-- Translation of the test branch of `main`: when `--test` is selected,
`s7_bench_test` is invoked with freq_min=60e6, freq_max=150e6,
freq_step=1e6, vco_freq from `soc.crg.main_pll.compute_config()["vco"]`
and the bios payload path; otherwise no sweep is run. -/
def mainTestInvocation (args : Args) : Option SweepParams :=
  if args.test then
    some {
      freq_min := 60000000,
      freq_max := 150000000,
      freq_step := 1000000,
      vco_freq := .pllComputedConfigVco "main_pll",
      bios_filename := "build/arty/software/bios/bios.bin" }
  else
    none

/-! ## Claims -/

/-- C1: the Cascade Clock Stage's PLL reset input is at every instant the
logical inverse of the Reference Lock Stage's lock signal: structurally,
the reset expression of the cascade `pll` is `~main_pll.locked`; under
every valuation it evaluates to the negation of the lock signal; and in
the observed cascade the cascade reset always equals the negation of the
main PLL's lock, so any loss of upstream lock immediately forces the
cascade stage into reset. -/
theorem cascade_pll_reset_is_inverse_of_main_lock (f : Nat) (v : Sig → Bool)
    (cr mfb cfb : Bool) :
    (crg f).pll.reset_expr = SigExpr.lnot (SigExpr.sig Sig.main_pll_locked) ∧
    SigExpr.eval v ((crg f).pll.reset_expr) = !(v Sig.main_pll_locked) ∧
    (benchObs cr mfb cfb).pll_reset = !(benchObs cr mfb cfb).main_pll_locked :=
  ⟨rfl, rfl, rfl⟩

/-- C2: for every system clock frequency, the cascade PLL's two
high-speed outputs sys4x and sys4x_dqs are created at exactly 4 times the
operating (sys) clock frequency, with sys4x_dqs at a fixed 90-degree
phase offset, and both are outputs of the one cascade PLL instance. -/
theorem cascade_pll_highspeed_outputs (f : Nat) :
    pllClkoutFreq (crg f).pll "sys" = some f ∧
    pllClkoutFreq (crg f).pll "sys4x" = some (4 * f) ∧
    pllClkoutFreq (crg f).pll "sys4x_dqs" = some (4 * f) ∧
    pllClkoutPhase (crg f).pll "sys4x" = some 0 ∧
    pllClkoutPhase (crg f).pll "sys4x_dqs" = some 90 ∧
    (⟨"sys4x", 4 * f, 0⟩ : Clkout) ∈ (crg f).pll.clkouts ∧
    (⟨"sys4x_dqs", 4 * f, 90⟩ : Clkout) ∈ (crg f).pll.clkouts := by
  refine ⟨rfl, rfl, rfl, rfl, rfl, ?_, ?_⟩
  · exact List.Mem.tail _ (List.Mem.head _)
  · exact List.Mem.tail _ (List.Mem.tail _ (List.Mem.head _))

/-- C3: the Reference Lock Stage's reset input is wired as the logical
inverse of the external cpu_reset signal, and while that reset is
asserted the main PLL's lock status is forced unlocked and its derived
clocks are held inactive. -/
theorem main_pll_reset_wiring (f : Nat) (v : Sig → Bool) (cr mfb cfb : Bool)
    (h : (benchObs cr mfb cfb).main_pll_reset = true) :
    (crg f).main_pll.reset_expr = SigExpr.lnot (SigExpr.sig Sig.cpu_reset) ∧
    SigExpr.eval v ((crg f).main_pll.reset_expr) = !(v Sig.cpu_reset) ∧
    (benchObs cr mfb cfb).main_pll_locked = false ∧
    pllOutputActive (benchObs cr mfb cfb).main_pll_locked = false := by
  refine ⟨rfl, rfl, ?_, ?_⟩ <;>
    cases cr <;> cases mfb <;> cases cfb <;>
      simp_all [benchObs, pllLockedObs, pllOutputActive]

/-- Witness for C3 at cpu_reset low (reset asserted) and both feedbacks
high. -/
theorem main_pll_reset_wiring_witness :
    (benchObs false true true).main_pll_reset = true ∧
    ((crg 150000000).main_pll.reset_expr =
        SigExpr.lnot (SigExpr.sig Sig.cpu_reset) ∧
      SigExpr.eval (fun _ => true) ((crg 150000000).main_pll.reset_expr) =
        !((fun _ => true) Sig.cpu_reset) ∧
      (benchObs false true true).main_pll_locked = false ∧
      pllOutputActive (benchObs false true true).main_pll_locked = false) :=
  ⟨by decide, main_pll_reset_wiring 150000000 (fun _ => true) false true true
    (by decide)⟩

/-- C4: the cycle counter is a 32-bit register whose next value is
always current + 1 modulo 2^32 (so it strictly increases short of
wraparound, and wraps from 2^32 - 1 to 0), advancing by that update on
every active operating-clock cycle, and it is exposed only through a
read-only CSRStatus with no write interface. -/
theorem sys_clk_counter_increment (f c : Nat) (h : c + 1 < 2 ^ 32) :
    sysClkCounterNext c = (c + 1) % 2 ^ 32 ∧
    sysClkCounterNext c = c + 1 ∧
    c < sysClkCounterNext c ∧
    sysClkCounterNext (2 ^ 32 - 1) = 0 ∧
    counterTick true c = sysClkCounterNext c ∧
    (crg f).sys_clk_counter_width = 32 ∧
    (crg f).sys_clk_counter_kind = CSRKind.status ∧
    CSRKind.writable (crg f).sys_clk_counter_kind = false := by
  have h2 : sysClkCounterNext c = c + 1 := Nat.mod_eq_of_lt h
  refine ⟨rfl, h2, ?_, by decide, rfl, rfl, rfl, rfl⟩
  rw [h2]
  exact Nat.lt_succ_self c

/-- Witness for C4 at counter value 5. -/
theorem sys_clk_counter_increment_witness :
    5 + 1 < 2 ^ 32 ∧
    (sysClkCounterNext 5 = (5 + 1) % 2 ^ 32 ∧
      sysClkCounterNext 5 = 5 + 1 ∧
      5 < sysClkCounterNext 5 ∧
      sysClkCounterNext (2 ^ 32 - 1) = 0 ∧
      counterTick true 5 = sysClkCounterNext 5 ∧
      (crg 150000000).sys_clk_counter_width = 32 ∧
      (crg 150000000).sys_clk_counter_kind = CSRKind.status ∧
      CSRKind.writable (crg 150000000).sys_clk_counter_kind = false) :=
  ⟨by decide, sys_clk_counter_increment 150000000 5 (by decide)⟩

/-- C5: while the Reference Lock Stage's reset input is asserted, the
main PLL and the cascade PLL both read unlocked, the calibration block
is inactive, and the cycle counter's value does not change (its clock
domain is inactive). -/
theorem reset_invariant_dependent_stages (cr mfb cfb : Bool) (c : Nat)
    (h : (benchObs cr mfb cfb).main_pll_reset = true) :
    (benchObs cr mfb cfb).main_pll_locked = false ∧
    (benchObs cr mfb cfb).pll_locked = false ∧
    idelayctrlActive (benchObs cr mfb cfb).main_pll_locked = false ∧
    counterTick (benchObs cr mfb cfb).sys_clock_active c = c := by
  cases cr <;> cases mfb <;> cases cfb <;>
    simp_all [benchObs, pllLockedObs, pllOutputActive, idelayctrlActive,
      counterTick]

/-- Witness for C5 at cpu_reset low, both feedbacks high, counter 7. -/
theorem reset_invariant_dependent_stages_witness :
    (benchObs false true true).main_pll_reset = true ∧
    ((benchObs false true true).main_pll_locked = false ∧
      (benchObs false true true).pll_locked = false ∧
      idelayctrlActive (benchObs false true true).main_pll_locked = false ∧
      counterTick (benchObs false true true).sys_clock_active 7 = 7) :=
  ⟨by decide, reset_invariant_dependent_stages false true true 7 (by decide)⟩

/-- C6: when the run-test action is selected, the sweep driver is
invoked with minimum frequency 60 MHz, maximum frequency 150 MHz,
frequency step 1 MHz, the VCO frequency taken from the main (Reference
Lock Stage) PLL's computed configuration, and the path to the known-good
bios test payload. -/
theorem main_test_invokes_sweep (args : Args) (h : args.test = true) :
    mainTestInvocation args = some {
      freq_min := 60000000,
      freq_max := 150000000,
      freq_step := 1000000,
      vco_freq := VcoSource.pllComputedConfigVco "main_pll",
      bios_filename := "build/arty/software/bios/bios.bin" } := by
  simp [mainTestInvocation, h]

/-- Witness for C6 with only the test flag set. -/
theorem main_test_invokes_sweep_witness :
    (Args.mk false false true).test = true ∧
    mainTestInvocation (Args.mk false false true) = some {
      freq_min := 60000000,
      freq_max := 150000000,
      freq_step := 1000000,
      vco_freq := VcoSource.pllComputedConfigVco "main_pll",
      bios_filename := "build/arty/software/bios/bios.bin" } :=
  ⟨rfl, main_test_invokes_sweep (Args.mk false false true) rfl⟩

/-- C7: the main PLL registers the external clk100 reference at 100 MHz
and derives the intermediate sys_pll clock at the requested system
frequency (150 MHz by the BenchSoC default) plus auxiliary clocks at
200 MHz (clk200) and 100 MHz (uart), and the main PLL — and only it, not
the cascade PLL — exposes the DRP runtime-reconfiguration interface. -/
theorem main_pll_clkin_and_outputs (f : Nat) :
    (crg f).main_pll.clkin_name = "clk100" ∧
    (crg f).main_pll.clkin_freq = 100000000 ∧
    pllClkoutFreq (crg f).main_pll "sys_pll" = some f ∧
    pllClkoutFreq (crg f).main_pll "clk200" = some 200000000 ∧
    pllClkoutFreq (crg f).main_pll "uart" = some 100000000 ∧
    (crg f).main_pll.drp_exposed = true ∧
    (crg f).pll.drp_exposed = false ∧
    benchSoCDefaultSysClkFreq = 150000000 ∧
    pllClkoutFreq (crg benchSoCDefaultSysClkFreq).main_pll "sys_pll" =
      some 150000000 :=
  ⟨rfl, rfl, rfl, rfl, rfl, rfl, rfl, rfl, rfl⟩

/-- C8: the IDELAYCTRL calibration block is clocked by the main PLL's
clk200 output (the designated 200 MHz calibration clock), and it is held
in reset exactly while the main PLL is unlocked, activating
automatically once lock is true with no separate handshake. -/
theorem idelayctrl_clock_and_gating (f : Nat) (l : Bool) :
    (crg f).idelayctrl_cd = "clk200" ∧
    pllClkoutFreq (crg f).main_pll "clk200" = some 200000000 ∧
    idelayctrlActive l = l ∧
    idelayctrlActive false = false ∧
    idelayctrlActive true = true :=
  ⟨rfl, rfl, rfl, rfl, rfl⟩

/-- C9: of the six declared clock domains, exactly sys4x and sys4x_dqs
are declared reset-less, and the other four (sys_pll, sys, clk200, uart)
are resettable. -/
theorem reset_less_domains (f : Nat) :
    ((crg f).clock_domains.filter (fun d => d.reset_less)).map
      (fun d => d.name) = ["sys4x", "sys4x_dqs"] ∧
    ((crg f).clock_domains.filter (fun d => !d.reset_less)).map
      (fun d => d.name) = ["sys_pll", "sys", "clk200", "uart"] ∧
    (crg f).clock_domains.length = 6 :=
  ⟨rfl, rfl, rfl⟩

/-- C10: the cascade PLL is frequency-neutral on its primary output: its
registered input clock is the sys_pll intermediate clock at the system
frequency, and its primary sys output is created at that same frequency,
for every value of the frequency. -/
theorem cascade_pll_frequency_neutral (f : Nat) :
    (crg f).pll.clkin_name = "sys_pll" ∧
    (crg f).pll.clkin_freq = f ∧
    pllClkoutFreq (crg f).pll "sys" = some ((crg f).pll.clkin_freq) ∧
    pllClkoutFreq (crg f).main_pll "sys_pll" = some f :=
  ⟨rfl, rfl, rfl, rfl⟩
